import Mathlib

/-!
Shallow embedding of the HashiCorp Vault signing client
(`src/keyring/providers/hashicorp/client.rs` and `error.rs`).

The transport (`Client<TokenData>::call_endpoint`) is external to the core:
each operation takes the transport's answer as an explicit parameter
(`Except VaultError (EndpointResponse _)`), standing for the single
request/response round trip the Rust code performs.  Bytes are modelled as
`Nat`, byte buffers as `List Nat`, and the external `base64` crate by an
executable standard-alphabet codec.  The Rust `copy_from_slice(&pubk[..32])`
on a buffer shorter than 32 bytes aborts (slice indexing out of range); that
outcome is modelled by the dedicated `PubKeyResult.crash` constructor, kept
distinct from every typed `Error`.
-/

/-- Constant `PUBLIC_KEY_SIZE` from client.rs. -/
def PUBLIC_KEY_SIZE : Nat := 32

/-- Constant `SIGNATURE_SIZE` from client.rs. -/
def SIGNATURE_SIZE : Nat := 64

/-- Constant `CONSENUS_KEY_TYPE` from client.rs (sic, the typo is the source's). -/
def CONSENUS_KEY_TYPE : String := "ed25519"

/-- Standard base64 alphabet, as used by `base64::decode` / `base64::encode`. -/
def base64Alphabet : List Char :=
  "ABCDEFGHIJKLMNOPQRSTUVWXYZabcdefghijklmnopqrstuvwxyz0123456789+/".data

/-- Index of a character in the base64 alphabet, `none` for a non-alphabet byte. -/
def b64Index (c : Char) : Option Nat :=
  List.findIdx? (fun a => a == c) base64Alphabet

/-- Character encoding a 6-bit group. -/
def base64EncChar (n : Nat) : Char := base64Alphabet.getD n 'A'

/-- Model of `base64::DecodeError` (payloads of the Rust variants dropped:
no claim inspects them). -/
inductive DecodeError where
  | invalidByte
  | invalidLength
  | invalidLastSymbol
deriving DecidableEq

/-- Base64 decoding of a character stream, four characters at a time.
Padding characters are accepted only at the very end; a final partial chunk
of two or three characters (unpadded input) is accepted as the base64 crate
does; non-zero trailing bits are rejected. -/
def decodeChunks : List Char → Except DecodeError (List Nat)
  | [] => Except.ok []
  | [_] => Except.error DecodeError.invalidLength
  | [c1, c2] =>
    match b64Index c1, b64Index c2 with
    | some v1, some v2 =>
      if v2 % 16 = 0 then Except.ok [v1 * 4 + v2 / 16]
      else Except.error DecodeError.invalidLastSymbol
    | _, _ => Except.error DecodeError.invalidByte
  | [c1, c2, c3] =>
    match b64Index c1, b64Index c2, b64Index c3 with
    | some v1, some v2, some v3 =>
      if v3 % 4 = 0 then Except.ok [v1 * 4 + v2 / 16, v2 % 16 * 16 + v3 / 4]
      else Except.error DecodeError.invalidLastSymbol
    | _, _, _ => Except.error DecodeError.invalidByte
  | c1 :: c2 :: c3 :: c4 :: rest =>
    match b64Index c1, b64Index c2 with
    | some v1, some v2 =>
      if c3 = '=' then
        if c4 = '=' ∧ rest = [] then
          if v2 % 16 = 0 then Except.ok [v1 * 4 + v2 / 16]
          else Except.error DecodeError.invalidLastSymbol
        else Except.error DecodeError.invalidByte
      else
        match b64Index c3 with
        | some v3 =>
          if c4 = '=' then
            if rest = [] then
              if v3 % 4 = 0 then Except.ok [v1 * 4 + v2 / 16, v2 % 16 * 16 + v3 / 4]
              else Except.error DecodeError.invalidLastSymbol
            else Except.error DecodeError.invalidByte
          else
            match b64Index c4 with
            | some v4 =>
              match decodeChunks rest with
              | Except.ok tail =>
                Except.ok ((v1 * 4 + v2 / 16) :: (v2 % 16 * 16 + v3 / 4) ::
                  (v3 % 4 * 64 + v4) :: tail)
              | Except.error e => Except.error e
            | none => Except.error DecodeError.invalidByte
        | none => Except.error DecodeError.invalidByte
    | _, _ => Except.error DecodeError.invalidByte

/-- Model of `base64::decode`. -/
def base64_decode (s : String) : Except DecodeError (List Nat) :=
  decodeChunks s.data

/-- Base64 encoding of a byte stream, three bytes at a time, with padding. -/
def encodeChunks : List Nat → List Char
  | [] => []
  | [b1] => [base64EncChar (b1 / 4), base64EncChar (b1 % 4 * 16), '=', '=']
  | [b1, b2] =>
    [base64EncChar (b1 / 4), base64EncChar (b1 % 4 * 16 + b2 / 16),
      base64EncChar (b2 % 16 * 4), '=']
  | b1 :: b2 :: b3 :: rest =>
    base64EncChar (b1 / 4) :: base64EncChar (b1 % 4 * 16 + b2 / 16) ::
      base64EncChar (b2 % 16 * 4 + b3 / 64) :: base64EncChar (b3 % 64) :: encodeChunks rest

/-- Model of `base64::encode`. -/
def base64_encode (bs : List Nat) : String := String.mk (encodeChunks bs)

/-- Splitting a character stream at every occurrence of `sep`, keeping empty
pieces, exactly as Rust `str::split` on a single-character pattern: the
result always has one more piece than there are separators. -/
def splitChars (sep : Char) : List Char → List (List Char)
  | [] => [[]]
  | c :: rest =>
    let r := splitChars sep rest
    if c = sep then [] :: r
    else
      match r with
      | h :: t => (c :: h) :: t
      | [] => [[c]]

/-- Model of `data.signature.split(":").collect::<Vec<&str>>()` in `sign`. -/
def signatureParts (s : String) : List String :=
  (splitChars ':' s.data).map String.mk

/-- Dropping one trailing carriage return, used by the `lines` model for
every line that was terminated by a newline. -/
def stripTrailingCR (l : List Char) : List Char :=
  if l.getLast? = some '\r' then l.dropLast else l

/-- Model of Rust `str::lines`: split at every newline; a carriage return
immediately before a newline is stripped; a final empty piece (i.e. a
trailing newline) produces no extra line; an unterminated final line is
kept verbatim. -/
def rustLines (s : String) : List String :=
  let raw := splitChars '\n' s.data
  let terminated := (raw.dropLast.map stripTrailingCR).map String.mk
  match raw.getLast? with
  | some [] => terminated
  | some lastChunk => terminated ++ [String.mk lastChunk]
  | none => terminated

/-- Opaque failure of the transport collaborator (`hashicorp_vault::Error`). -/
inductive VaultError where
  | transport (code : Nat)
deriving DecidableEq

/-- Model of `hashicorp_vault::client::EndpointResponse`, keeping of
`VaultResponse` only its `data: Option<D>` field (the only one the client
reads). -/
inductive EndpointResponse (α : Type) where
  | vaultResponse (data : Option α)
  | empty

/-- Model of `std::collections::BTreeMap<usize, β>`: an association list
strictly ascending in its keys, which is exactly the order `iter()` /
`into_iter()` traverse. -/
structure BTreeMap (β : Type) where
  entries : List (Nat × β)
  sorted : List.Chain' (fun a b => a.1 < b.1) entries

/-- Model of `.iter().last()` / `.into_iter().last()` on a `BTreeMap`:
the entry with the greatest key, if any. -/
def latestEntry {β : Type} (m : BTreeMap β) : Option (Nat × β) :=
  m.entries.getLast?

/-- Model of the `PublicKeyResponse` payload: `keys` maps a version number
to a string-to-string record (`HashMap<String, String>`, modelled as an
association list queried with `List.lookup`). -/
structure PublicKeyResponse where
  keys : BTreeMap (List (String × String))

/-- Model of the `SignRequest` body. -/
structure SignRequest where
  input : String

/-- Model of the `SignResponse` payload. -/
structure SignResponse where
  signature : String

/-- Model of the `wrapping_key` response payload. -/
structure WrappingKeyResponse where
  public_key : String

/-- Model of the `ExportKeyResponse` payload. -/
structure ExportKeyResponse where
  name : String
  type : String
  keys : BTreeMap String

/-- Model of `super::error::Error`, with the payloads the client actually
attaches (`client.rs` constructs `InvalidPubKey` and `InvalidSignature`
with a detail string). -/
inductive Error where
  | invalidVersion
  | invalidEmptyMessage
  | invalidMessageSize
  | invalidPubKey (detail : String)
  | invalidPk
  | noSignature
  | invalidSignature (detail : String)
  | apiClientError (e : VaultError)
  | decodeError (e : DecodeError)
  | serDeError
deriving DecidableEq

/-- Client state: the key name and the write-once public-key cache.  The
session handle itself is external and is represented by the transport
parameters of the operations. -/
structure TendermintValidatorApp where
  key_name : String
  public_key_value : Option (List Nat)
deriving DecidableEq

/-- Outcome of `public_key`: a typed success or error, or the abort the
Rust code hits when it slices a too-short decoded buffer. -/
inductive PubKeyResult where
  | ok (key : List Nat)
  | err (e : Error)
  | crash
deriving DecidableEq

/-- Detail string of the missing-envelope error in `public_key`. -/
def pkUnavailableMsg : String := "Public key: Vault response unavailable"

/-- Detail string of the key-type mismatch error in `public_key`. -/
def pkTypeMismatchMsg (key_name received : String) : String :=
  "Public key \"" ++ key_name ++ "\": expected key type:" ++ CONSENUS_KEY_TYPE ++
    ", received:" ++ received

/-- Detail string of the missing key-type error in `public_key`. -/
def pkNoTypeMsg (key_name : String) : String :=
  "Public key \"" ++ key_name ++ "\": expected key type:" ++ CONSENUS_KEY_TYPE ++
    ", unable to determine type"

/-- Detail string of the missing `public_key` field error. -/
def pkFieldMissingMsg : String :=
  "Public key: unable to retrieve - \"public_key\" key is not found!"

/-- Detail string of the empty key-material mapping error. -/
def pkNoVersionMsg : String :=
  "Public key: unable to retrieve last version - not available!"

/-- Detail string of the part-count error in `sign`. -/
def signPartsMsg (n : Nat) (full : String) : String :=
  "expected 3 parts, received:" ++ toString n ++ " full:" ++ full

/-- Detail string of the (unreachable) missing-last-part error in `sign`. -/
def lastPartMsg : String := "last part is not available"

/-- Detail string of the signature-length error in `sign`. -/
def sigLenMsg (n : Nat) : String := "invalid signature length! 64 == " ++ toString n

/-- Detail string of the wrapping-key / export errors. -/
def wrappingKeyErrMsg : String := "Error getting wrapping key!"

/-- Model of `TendermintValidatorApp::public_key`.  `resp` is the transport's
answer to `GET transit/keys/<key_name>`; it is consulted only when the cache
is empty.  The third component records whether the network round trip was
performed. -/
def public_key (app : TendermintValidatorApp)
    (resp : Except VaultError (EndpointResponse PublicKeyResponse)) :
    PubKeyResult × TendermintValidatorApp × Bool :=
  match app.public_key_value with
  | some v => (PubKeyResult.ok v, app, false)
  | none =>
    match resp with
    | Except.error e => (PubKeyResult.err (Error.apiClientError e), app, true)
    | Except.ok (EndpointResponse.vaultResponse (some data)) =>
      match latestEntry data.keys with
      | some (_version, map) =>
        match map.lookup "public_key" with
        | some pubk =>
          match map.lookup "name" with
          | some key_type =>
            if CONSENUS_KEY_TYPE ≠ key_type then
              (PubKeyResult.err (Error.invalidPubKey
                (pkTypeMismatchMsg app.key_name key_type)), app, true)
            else
              match base64_decode pubk with
              | Except.error e => (PubKeyResult.err (Error.decodeError e), app, true)
              | Except.ok bytes =>
                if bytes.length < PUBLIC_KEY_SIZE then (PubKeyResult.crash, app, true)
                else
                  let array := bytes.take PUBLIC_KEY_SIZE
                  (PubKeyResult.ok array,
                    { app with public_key_value := some array }, true)
          | none =>
            (PubKeyResult.err (Error.invalidPubKey (pkNoTypeMsg app.key_name)), app, true)
        | none => (PubKeyResult.err (Error.invalidPubKey pkFieldMissingMsg), app, true)
      | none => (PubKeyResult.err (Error.invalidPubKey pkNoVersionMsg), app, true)
    | Except.ok _ => (PubKeyResult.err (Error.invalidPubKey pkUnavailableMsg), app, true)

/-- Model of `TendermintValidatorApp::sign`.  `transport` answers the
`POST transit/sign/<key_name>` call for a given request body; the second
component records whether that round trip was performed. -/
def sign (app : TendermintValidatorApp) (message : List Nat)
    (transport : SignRequest → Except VaultError (EndpointResponse SignResponse)) :
    Except Error (List Nat) × Bool :=
  if message.isEmpty then (Except.error Error.invalidEmptyMessage, false)
  else
    let body : SignRequest := { input := base64_encode message }
    match transport body with
    | Except.error e => (Except.error (Error.apiClientError e), true)
    | Except.ok (EndpointResponse.vaultResponse (some data)) =>
      let parts := signatureParts data.signature
      if parts.length ≠ 3 then
        (Except.error (Error.invalidSignature (signPartsMsg parts.length data.signature)),
          true)
      else
        match parts.getLast? with
        | some base64_signature =>
          match base64_decode base64_signature with
          | Except.error e => (Except.error (Error.decodeError e), true)
          | Except.ok signature =>
            if signature.length ≠ 64 then
              (Except.error (Error.invalidSignature (sigLenMsg signature.length)), true)
            else (Except.ok (signature.take SIGNATURE_SIZE), true)
        | none => (Except.error (Error.invalidSignature lastPartMsg), true)
    | Except.ok _ => (Except.error Error.noSignature, true)

/-- Model of `TendermintValidatorApp::wrapping_key`.  `resp` is the
transport's answer to `GET transit/wrapping_key`. -/
def wrapping_key (resp : Except VaultError (EndpointResponse WrappingKeyResponse)) :
    Except Error String :=
  match resp with
  | Except.error e => Except.error (Error.apiClientError e)
  | Except.ok (EndpointResponse.vaultResponse (some d)) =>
    match (rustLines d.public_key).get? 1 with
    | some key => Except.ok key
    | none => Except.error (Error.invalidPubKey wrappingKeyErrMsg)
  | Except.ok _ => Except.error (Error.invalidPubKey wrappingKeyErrMsg)

/-- Model of `TendermintValidatorApp::export_key`.  `resp` is the
transport's answer to `GET transit/export/<key_type>/<key_name>`. -/
def export_key (resp : Except VaultError (EndpointResponse ExportKeyResponse)) :
    Except Error String :=
  match resp with
  | Except.error e => Except.error (Error.apiClientError e)
  | Except.ok (EndpointResponse.vaultResponse (some data)) =>
    match latestEntry data.keys with
    | some (_, key) => Except.ok key
    | none => Except.error (Error.invalidPubKey wrappingKeyErrMsg)
  | Except.ok _ => Except.error (Error.invalidPubKey wrappingKeyErrMsg)

/-- Singleton key-material mapping, used to state that only the
greatest-version entry influences the result. -/
def singletonMap {β : Type} (k : Nat) (v : β) : BTreeMap β :=
  ⟨[(k, v)], by simp⟩

/-- Concrete two-version export mapping for the C6 witness. -/
def exportMapW : BTreeMap String :=
  ⟨[(1, "v1key"), (2, "v2key")], by simp [List.chain'_cons]⟩

/-- Sanity check of the codec model: a one-byte padded chunk. -/
theorem base64_decode_one_byte : base64_decode "AA==" = Except.ok [0] := rfl

/-- Sanity check of the codec model against the repository test vector
`TEST_PUB_KEY_VALUE` (32 bytes). -/
theorem base64_decode_test_vector :
    base64_decode "ng+ab41LawVupIXX3ocMn+AfV2W1DEMCfjAdtrwXND8=" =
      Except.ok [158, 15, 154, 111, 141, 75, 107, 5, 110, 164, 133, 215, 222, 135, 12,
        159, 224, 31, 87, 101, 181, 12, 67, 2, 126, 48, 29, 182, 188, 23, 52, 63] := rfl

/-- Sanity check of the split model on a three-part tag. -/
theorem signatureParts_three_parts :
    signatureParts "vault:v1:abc" = ["vault", "v1", "abc"] := rfl

/-- Sanity check of the split model: splitting the empty string yields one
(empty) part, as Rust `split` does. -/
theorem signatureParts_empty : signatureParts "" = [""] := rfl

/-- Sanity check of the lines model on mixed CRLF and LF endings. -/
theorem rustLines_crlf : rustLines "a\r\nb\nc" = ["a", "b", "c"] := rfl

/-- Sanity check of the lines model: a final line ending adds no line. -/
theorem rustLines_trailing_newline : rustLines "a\n" = ["a"] := rfl

/-- Sanity check of the lines model: the empty string has no lines. -/
theorem rustLines_empty : rustLines "" = [] := rfl

/-- Sanity check of the encoder model on a three-byte block. -/
theorem base64_encode_three_bytes : base64_encode [113, 113, 113] = "cXFx" := rfl

/-- Entry returned by `latestEntry` carries the numerically greatest key of
the mapping (the `BTreeMap` invariant: ascending iteration order). -/
theorem getLast_is_max {β : Type} :
    ∀ (l : List (Nat × β)), List.Chain' (fun a b => a.1 < b.1) l →
      ∀ k v, l.getLast? = some (k, v) → ∀ p ∈ l, p.1 ≤ k
  | [], _, _, _, h, _, _ => by simp at h
  | [x], _, k, v, h, p, hp => by
      simp at h hp
      subst hp
      rw [h]
  | x :: y :: rest, hc, k, v, h, p, hp => by
      rw [List.chain'_cons] at hc
      have hlast : (y :: rest).getLast? = some (k, v) := by
        rw [List.getLast?_cons_cons] at h
        exact h
      have ih := getLast_is_max (y :: rest) hc.2 k v hlast
      rcases List.mem_cons.mp hp with rfl | hmem
      · have hy : y.1 ≤ k := ih y (List.mem_cons_self _ _)
        exact le_of_lt (lt_of_lt_of_le hc.1 hy)
      · exact ih p hmem

/-- C3: `sign` called with a zero-length message always fails immediately
with the dedicated empty-message error (`InvalidEmptyMessage`) and the
transport is never invoked. -/
theorem sign_empty_message_no_network (app : TendermintValidatorApp)
    (transport : SignRequest → Except VaultError (EndpointResponse SignResponse)) :
    sign app [] transport = (Except.error Error.invalidEmptyMessage, false) := rfl

/-- C10: once the signature tag has been checked to split into exactly 3
parts, taking the last part always succeeds, so the "last part is not
available" branch of `sign` is unreachable. -/
theorem signatureParts_last_available (s : String)
    (h : (signatureParts s).length = 3) :
    ((signatureParts s).getLast?).isSome := by
  rw [List.getLast?_isSome]
  intro hn
  rw [hn] at h
  simp at h

/-- Witness for C10 at the documented tag shape. -/
theorem signatureParts_last_available_witness :
    (signatureParts "vault:v1:abc").length = 3 ∧
      ((signatureParts "vault:v1:abc").getLast?).isSome :=
  ⟨rfl, signatureParts_last_available "vault:v1:abc" rfl⟩

/-- C1 (code bug): on a public-key response whose base64 payload decodes to
fewer than 32 bytes ("AA==" decodes to one byte), the code reaches
`array.copy_from_slice(&pubk[..PUBLIC_KEY_SIZE])` with a too-short buffer
and aborts (out-of-bounds slice) instead of returning a typed error. -/
theorem public_key_short_decode_crashes :
    public_key ⟨"cosmoshub-sign-key", none⟩
        (Except.ok (EndpointResponse.vaultResponse (some ⟨singletonMap 1
          [("name", "ed25519"), ("public_key", "AA==")]⟩))) =
      (PubKeyResult.crash, ⟨"cosmoshub-sign-key", none⟩, true) := rfl

/-- C8: when the wrapping-key payload string has a second line (zero-based
index 1), `wrapping_key` returns exactly that line; with fewer than two
lines it fails with `InvalidPubKey`. -/
theorem wrapping_key_second_line (s : String) :
    (∀ l, (rustLines s).get? 1 = some l →
      wrapping_key (Except.ok (EndpointResponse.vaultResponse (some ⟨s⟩))) =
        Except.ok l) ∧
    ((rustLines s).length < 2 →
      wrapping_key (Except.ok (EndpointResponse.vaultResponse (some ⟨s⟩))) =
        Except.error (Error.invalidPubKey wrappingKeyErrMsg)) := by
  constructor
  · intro l hl
    simp only [wrapping_key]
    rw [hl]
  · intro hlen
    have hnone : (rustLines s).get? 1 = none := by
      rw [List.get?_eq_none]
      omega
    simp only [wrapping_key]
    rw [hnone]

/-- Witness for C8 on a three-line PEM-shaped payload. -/
theorem wrapping_key_second_line_witness :
    wrapping_key (Except.ok (EndpointResponse.vaultResponse
        (some ⟨"-----BEGIN PUBLIC KEY-----\nMIICIjANBgkq\n-----END PUBLIC KEY-----"⟩))) =
      Except.ok "MIICIjANBgkq" :=
  (wrapping_key_second_line
    "-----BEGIN PUBLIC KEY-----\nMIICIjANBgkq\n-----END PUBLIC KEY-----").1
    "MIICIjANBgkq" rfl

/-- Cache hit: whenever the public-key cache is populated, `public_key`
returns the cached value, does not touch the transport, and leaves the
client state unchanged. -/
theorem public_key_cache_hit (app : TendermintValidatorApp)
    (r : Except VaultError (EndpointResponse PublicKeyResponse))
    (v : List Nat) (h : app.public_key_value = some v) :
    public_key app r = (PubKeyResult.ok v, app, false) := by
  simp [public_key, h]

/-- Every successful `public_key` call leaves the cache populated with
exactly the returned value. -/
theorem public_key_ok_populates (app app1 : TendermintValidatorApp)
    (r : Except VaultError (EndpointResponse PublicKeyResponse))
    (k : List Nat) (c1 : Bool)
    (h : public_key app r = (PubKeyResult.ok k, app1, c1)) :
    app1.public_key_value = some k := by
  unfold public_key at h
  repeat' split at h
  all_goals simp_all
  all_goals obtain ⟨h1, h2, h3⟩ := h
  all_goals rw [← h2, ← h1]

/-- C5: if a `public_key` call succeeds with value `k` and state `app1`,
then a second call returns the same `k` from the cache, performs no network
fetch, and leaves the state (hence the cache) unchanged; the cache holds
exactly `k`. -/
theorem public_key_cached_second_call (app app1 : TendermintValidatorApp)
    (r1 r2 : Except VaultError (EndpointResponse PublicKeyResponse))
    (k : List Nat) (c1 : Bool)
    (h : public_key app r1 = (PubKeyResult.ok k, app1, c1)) :
    public_key app1 r2 = (PubKeyResult.ok k, app1, false) ∧
      app1.public_key_value = some k := by
  have hv := public_key_ok_populates app app1 r1 k c1 h
  exact ⟨public_key_cache_hit app1 r2 k hv, hv⟩

/-- Witness for C5: a fetch that succeeds with 32 zero bytes, followed by a
second call whose transport answer is a failure that is never consulted. -/
theorem public_key_cached_second_call_witness :
    public_key ⟨"k", some (List.replicate 32 0)⟩ (Except.error (VaultError.transport 0)) =
      (PubKeyResult.ok (List.replicate 32 0), ⟨"k", some (List.replicate 32 0)⟩, false) ∧
      (⟨"k", some (List.replicate 32 0)⟩ : TendermintValidatorApp).public_key_value =
        some (List.replicate 32 0) :=
  public_key_cached_second_call ⟨"k", none⟩ ⟨"k", some (List.replicate 32 0)⟩
    (Except.ok (EndpointResponse.vaultResponse (some ⟨singletonMap 1
      [("name", "ed25519"),
        ("public_key", "AAAAAAAAAAAAAAAAAAAAAAAAAAAAAAAAAAAAAAAAAAA=")]⟩)))
    (Except.error (VaultError.transport 0))
    (List.replicate 32 0) true rfl

/-- C2: for a non-empty message and a response whose signature tag splits
on the colon into exactly 3 parts with a third part that base64-decodes to
exactly 64 bytes, `sign` returns exactly those 64 decoded bytes. -/
theorem sign_returns_decoded_bytes (app : TendermintValidatorApp)
    (message : List Nat)
    (transport : SignRequest → Except VaultError (EndpointResponse SignResponse))
    (s p1 p2 p3 : String) (bytes : List Nat)
    (hm : message ≠ [])
    (ht : transport { input := base64_encode message } =
      Except.ok (EndpointResponse.vaultResponse (some ⟨s⟩)))
    (hp : signatureParts s = [p1, p2, p3])
    (hd : base64_decode p3 = Except.ok bytes)
    (hl : bytes.length = 64) :
    sign app message transport = (Except.ok bytes, true) := by
  obtain ⟨a, t, rfl⟩ : ∃ a t, message = a :: t := by
    cases message with
    | nil => exact absurd rfl hm
    | cons a t => exact ⟨a, t, rfl⟩
  have hlast : [p1, p2, p3].getLast? = some p3 := rfl
  have htake : bytes.take SIGNATURE_SIZE = bytes := by
    show bytes.take 64 = bytes
    rw [← hl, List.take_length]
  simp [sign, ht, hp, hlast, hd, hl, htake]

/-- C4: with a non-empty message and a response carrying a signature tag,
`sign` fails with `InvalidSignature` exactly when the tag does not split on
the colon into exactly 3 parts (the error citing the actual part count and
the full tag) or the decoded third part is not exactly 64 bytes long (the
error citing the actual length); in both failure cases only an error is
returned, never a buffer. -/
theorem sign_invalid_signature_iff (app : TendermintValidatorApp)
    (message : List Nat)
    (transport : SignRequest → Except VaultError (EndpointResponse SignResponse))
    (s : String)
    (hm : message ≠ [])
    (ht : transport { input := base64_encode message } =
      Except.ok (EndpointResponse.vaultResponse (some ⟨s⟩))) :
    ((signatureParts s).length ≠ 3 →
      sign app message transport =
        (Except.error (Error.invalidSignature
          (signPartsMsg (signatureParts s).length s)), true)) ∧
    (∀ p3 bytes, (signatureParts s).length = 3 →
      (signatureParts s).getLast? = some p3 →
      base64_decode p3 = Except.ok bytes → bytes.length ≠ 64 →
      sign app message transport =
        (Except.error (Error.invalidSignature (sigLenMsg bytes.length)), true)) ∧
    ((∃ d, sign app message transport =
        (Except.error (Error.invalidSignature d), true)) →
      (signatureParts s).length ≠ 3 ∨
        ∃ p3 bytes, (signatureParts s).getLast? = some p3 ∧
          base64_decode p3 = Except.ok bytes ∧ bytes.length ≠ 64) := by
  obtain ⟨a, t, rfl⟩ : ∃ a t, message = a :: t := by
    cases message with
    | nil => exact absurd rfl hm
    | cons a t => exact ⟨a, t, rfl⟩
  refine ⟨?_, ?_, ?_⟩
  · intro h3
    simp [sign, ht, h3]
  · intro p3 bytes h3 hlast hdec hl64
    simp [sign, ht, h3, hlast, hdec, hl64]
  · rintro ⟨d, hd⟩
    by_cases h3 : (signatureParts s).length = 3
    · right
      have hne : signatureParts s ≠ [] := by
        intro he
        rw [he] at h3
        simp at h3
      obtain ⟨p3, hp3⟩ : ∃ p3, (signatureParts s).getLast? = some p3 := by
        have hs := List.getLast?_isSome.mpr hne
        cases hh : (signatureParts s).getLast? with
        | some x => exact ⟨x, rfl⟩
        | none => rw [hh] at hs; simp at hs
      rcases hdec : base64_decode p3 with e | bytes
      · exfalso
        simp [sign, ht, h3, hp3, hdec] at hd
      · by_cases hl : bytes.length = 64
        · exfalso
          simp [sign, ht, h3, hp3, hdec, hl] at hd
        · exact ⟨p3, bytes, hp3, hdec, hl⟩
    · exact Or.inl h3

/-- Witness for C4 on a tag with a single part. -/
theorem sign_invalid_signature_iff_witness :
    sign ⟨"k", none⟩ [113]
      (fun _ => Except.ok (EndpointResponse.vaultResponse (some ⟨"badtag"⟩))) =
      (Except.error (Error.invalidSignature (signPartsMsg 1 "badtag")), true) :=
  (sign_invalid_signature_iff ⟨"k", none⟩ [113]
    (fun _ => Except.ok (EndpointResponse.vaultResponse (some ⟨"badtag"⟩)))
    "badtag" (by decide) rfl).1 (by decide)

/-- Witness for C2 on the 64-zero-byte signature. -/
theorem sign_returns_decoded_bytes_witness :
    sign ⟨"k", none⟩ [113, 113, 113]
      (fun _ => Except.ok (EndpointResponse.vaultResponse
        (some ⟨"vault:v1:AAAAAAAAAAAAAAAAAAAAAAAAAAAAAAAAAAAAAAAAAAAAAAAAAAAAAAAAAAAAAAAAAAAAAAAAAAAAAAAAAAAAAA=="⟩))) =
      (Except.ok (List.replicate 64 0), true) :=
  sign_returns_decoded_bytes ⟨"k", none⟩ [113, 113, 113]
    (fun _ => Except.ok (EndpointResponse.vaultResponse
      (some ⟨"vault:v1:AAAAAAAAAAAAAAAAAAAAAAAAAAAAAAAAAAAAAAAAAAAAAAAAAAAAAAAAAAAAAAAAAAAAAAAAAAAAAAAAAAAAAA=="⟩)))
    "vault:v1:AAAAAAAAAAAAAAAAAAAAAAAAAAAAAAAAAAAAAAAAAAAAAAAAAAAAAAAAAAAAAAAAAAAAAAAAAAAAAAAAAAAAAA=="
    "vault" "v1"
    "AAAAAAAAAAAAAAAAAAAAAAAAAAAAAAAAAAAAAAAAAAAAAAAAAAAAAAAAAAAAAAAAAAAAAAAAAAAAAAAAAAAAAA=="
    (List.replicate 64 0) (by decide) rfl rfl rfl rfl

/-- Membership of the entry returned by `getLast?`. -/
theorem mem_of_getLast_eq_some {α : Type} {l : List α} {a : α}
    (h : l.getLast? = some a) : a ∈ l := by
  obtain ⟨hne, heq⟩ := List.mem_getLast?_eq_getLast (Option.mem_def.mpr h)
  rw [heq]
  exact List.getLast_mem hne

/-- C6: `latestEntry` (the common selection step of `public_key` and
`export_key`) picks the entry with the numerically greatest version key;
`public_key`'s outcome depends only on that entry; `export_key` returns
that entry's material; and on an empty mapping both operations fail with
`InvalidPubKey` (no abort). -/
theorem latest_version_selection (app : TendermintValidatorApp)
    (m : BTreeMap (List (String × String))) (me : BTreeMap String)
    (nm ty : String)
    (happ : app.public_key_value = none) :
    (∀ k v, latestEntry m = some (k, v) →
      (k, v) ∈ m.entries ∧ ∀ p ∈ m.entries, p.1 ≤ k) ∧
    (∀ k v, latestEntry me = some (k, v) →
      (k, v) ∈ me.entries ∧ ∀ p ∈ me.entries, p.1 ≤ k) ∧
    (∀ k v, latestEntry m = some (k, v) →
      public_key app (Except.ok (EndpointResponse.vaultResponse (some ⟨m⟩))) =
        public_key app (Except.ok (EndpointResponse.vaultResponse
          (some ⟨singletonMap k v⟩)))) ∧
    (∀ k v, latestEntry me = some (k, v) →
      export_key (Except.ok (EndpointResponse.vaultResponse (some ⟨nm, ty, me⟩))) =
        Except.ok v) ∧
    (m.entries = [] →
      public_key app (Except.ok (EndpointResponse.vaultResponse (some ⟨m⟩))) =
        (PubKeyResult.err (Error.invalidPubKey pkNoVersionMsg), app, true)) ∧
    (me.entries = [] →
      export_key (Except.ok (EndpointResponse.vaultResponse (some ⟨nm, ty, me⟩))) =
        Except.error (Error.invalidPubKey wrappingKeyErrMsg)) := by
  refine ⟨?_, ?_, ?_, ?_, ?_, ?_⟩
  · intro k v h
    exact ⟨mem_of_getLast_eq_some h, getLast_is_max m.entries m.sorted k v h⟩
  · intro k v h
    exact ⟨mem_of_getLast_eq_some h, getLast_is_max me.entries me.sorted k v h⟩
  · intro k v h
    have hsing : latestEntry (singletonMap k v) = some (k, v) := rfl
    simp [public_key, happ, h, hsing]
  · intro k v h
    simp [export_key, h]
  · intro he
    simp [public_key, happ, latestEntry, he]
  · intro he
    simp [export_key, latestEntry, he]

/-- Witness for C6: the two-version export mapping yields version 2. -/
theorem latest_version_selection_witness :
    export_key (Except.ok (EndpointResponse.vaultResponse
        (some ⟨"n", "t", exportMapW⟩))) = Except.ok "v2key" :=
  ((latest_version_selection ⟨"k", none⟩ (singletonMap 1 []) exportMapW "n" "t"
    rfl).2.2.2.1) 2 "v2key" rfl

/-- C7 counterexample: the latest entry's algorithm field exists and is not
"ed25519", yet because the "public_key" field is absent the error is the
missing-field `InvalidPubKey` message, which does not carry the expected
and received algorithm names as the claim requires. -/
theorem public_key_algo_mismatch_counterexample :
    (List.lookup "name" [("name", "rsa")] = some "rsa" ∧
      "rsa" ≠ CONSENUS_KEY_TYPE) ∧
    public_key ⟨"k", none⟩ (Except.ok (EndpointResponse.vaultResponse
        (some ⟨singletonMap 1 [("name", "rsa")]⟩))) =
      (PubKeyResult.err (Error.invalidPubKey pkFieldMissingMsg), ⟨"k", none⟩, true) ∧
    pkFieldMissingMsg ≠ pkTypeMismatchMsg "k" "rsa" := by
  decide

/-- C7 (amended): when the latest entry's algorithm field exists and is not
"ed25519", `public_key` fails with `InvalidPubKey` and leaves the cache
unpopulated; if the entry's public-key field is also present the error is
the type-mismatch message carrying the expected and received algorithm
names, otherwise it is the missing-public-key-field message. -/
theorem public_key_algo_mismatch (app : TendermintValidatorApp)
    (m : BTreeMap (List (String × String)))
    (ver : Nat) (entry : List (String × String)) (ty : String)
    (happ : app.public_key_value = none)
    (hlast : latestEntry m = some (ver, entry))
    (hname : entry.lookup "name" = some ty)
    (hne : ty ≠ CONSENUS_KEY_TYPE) :
    (∀ pk, entry.lookup "public_key" = some pk →
      public_key app (Except.ok (EndpointResponse.vaultResponse (some ⟨m⟩))) =
        (PubKeyResult.err (Error.invalidPubKey (pkTypeMismatchMsg app.key_name ty)),
          app, true)) ∧
    (entry.lookup "public_key" = none →
      public_key app (Except.ok (EndpointResponse.vaultResponse (some ⟨m⟩))) =
        (PubKeyResult.err (Error.invalidPubKey pkFieldMissingMsg), app, true)) := by
  constructor
  · intro pk hpk
    have hcond : CONSENUS_KEY_TYPE ≠ ty := fun h => hne h.symm
    simp [public_key, happ, hlast, hpk, hname, hcond]
  · intro hpk
    simp [public_key, happ, hlast, hpk]

/-- Witness for C7 (amended) with algorithm "rsa" and a present key field. -/
theorem public_key_algo_mismatch_witness :
    public_key ⟨"k", none⟩ (Except.ok (EndpointResponse.vaultResponse
        (some ⟨singletonMap 1 [("name", "rsa"), ("public_key", "AA==")]⟩))) =
      (PubKeyResult.err (Error.invalidPubKey (pkTypeMismatchMsg "k" "rsa")),
        ⟨"k", none⟩, true) :=
  (public_key_algo_mismatch ⟨"k", none⟩
    (singletonMap 1 [("name", "rsa"), ("public_key", "AA==")])
    1 [("name", "rsa"), ("public_key", "AA==")] "rsa"
    rfl rfl rfl (by decide)).1 "AA==" rfl

/-- C9: when the validated entry's base64 payload decodes to 32 or more
bytes, `public_key` returns exactly the first 32 decoded bytes (excess
bytes are silently ignored, no error) and caches them. -/
theorem public_key_truncates_to_32 (app : TendermintValidatorApp)
    (m : BTreeMap (List (String × String)))
    (ver : Nat) (entry : List (String × String)) (pk : String) (bytes : List Nat)
    (happ : app.public_key_value = none)
    (hlast : latestEntry m = some (ver, entry))
    (hpk : entry.lookup "public_key" = some pk)
    (hname : entry.lookup "name" = some CONSENUS_KEY_TYPE)
    (hdec : base64_decode pk = Except.ok bytes)
    (hlen : 32 ≤ bytes.length) :
    public_key app (Except.ok (EndpointResponse.vaultResponse (some ⟨m⟩))) =
      (PubKeyResult.ok (bytes.take 32),
        { app with public_key_value := some (bytes.take 32) }, true) := by
  have hnot : ¬ (bytes.length < PUBLIC_KEY_SIZE) := by
    simp only [PUBLIC_KEY_SIZE]
    omega
  simp [public_key, happ, hlast, hpk, hname, hdec, hnot, PUBLIC_KEY_SIZE]
  omega

/-- Witness for C9 on a 33-byte decoded payload. -/
theorem public_key_truncates_to_32_witness :
    public_key ⟨"k", none⟩ (Except.ok (EndpointResponse.vaultResponse
        (some ⟨singletonMap 1 [("name", "ed25519"),
          ("public_key", "AAAAAAAAAAAAAAAAAAAAAAAAAAAAAAAAAAAAAAAAAAAA")]⟩))) =
      (PubKeyResult.ok (List.replicate 32 0),
        ⟨"k", some (List.replicate 32 0)⟩, true) :=
  public_key_truncates_to_32 ⟨"k", none⟩
    (singletonMap 1 [("name", "ed25519"), ("public_key", "AAAAAAAAAAAAAAAAAAAAAAAAAAAAAAAAAAAAAAAAAAAA")])
    1 [("name", "ed25519"), ("public_key", "AAAAAAAAAAAAAAAAAAAAAAAAAAAAAAAAAAAAAAAAAAAA")]
    "AAAAAAAAAAAAAAAAAAAAAAAAAAAAAAAAAAAAAAAAAAAA" (List.replicate 33 0)
    rfl rfl rfl rfl rfl (by decide)
